import Mathlib

/-!
Verification development for the `servicing` service-lifecycle library.

The Rust sources are shallowly embedded: pure data manipulation becomes
Lean functions, stateful operations become explicit state passing over a
`Cache` association list, and external effects (subprocess execution,
HTTP probes, file I/O) are passed in as explicit outcome parameters.
Machine integers (`u16`, `u32`, `u64`) are modelled as `Nat` with explicit
bounds where the encoding depends on them.
-/

/-- `models::UserProvidedConfig` (src/models/mod.rs): the sparse
user-supplied override.  `u16` fields are `Nat`s. -/
structure UserProvidedConfig where
  port : Option Nat
  replicas : Option Nat
  readiness_probe : Option String
  replica_up_check : Option String
  cloud : Option String
  workdir : Option String
  disk_size : Option Nat
  cpu : Option String
  memory : Option String
  accelerators : Option String
  setup : Option String
  run : Option String
deriving DecidableEq, Repr

/-- `orchestrator::Orchestrators` (src/orchestrator/mod.rs). -/
inductive Orchestrators where
  | SkyPilot
  | Local
deriving DecidableEq, Repr

/-- `errors::ServicingError`.  The variants used by the code under
verification; payloads that are opaque error objects (io, reqwest,
serde, bincode, base64) are dropped to nullary constructors. -/
inductive ServicingError where
  | General (msg : String)
  | IOErr
  | PipPackageError (pkg : String)
  | ReqwestError
  | ClusterProvisionError (msg : String)
  | SerdeYamlError
  | ServiceNotFound (name : String)
  | BinaryEncodeError
  | DecodeError
  | RegexError
  | LockError (msg : String)
  | ServiceNotUp (name : String)
deriving DecidableEq, Repr

namespace Dispatch

/-- `dispatch::Service` (src/dispatch/mod.rs lines 36-45): one cache
record.  `PathBuf` is modelled as `String`. -/
structure Service where
  config : Option UserProvidedConfig
  orchestrator : Orchestrators
  filepath : Option String
  readiness_probe : String
  url : Option String
  up : Bool
deriving DecidableEq, Repr

/-- The service cache (`ServiceCache = HashMap<String, Service>`),
modelled as an association list with unique keys maintained by
`insertC`. -/
abbrev Cache : Type := List (String × Service)

/-- First-match lookup, the model of `HashMap::get`. -/
def lookupC : Cache → String → Option Service
  | [], _ => none
  | (k, v) :: t, name => if k = name then some v else lookupC t name

/-- `HashMap::insert`: overwrite the existing entry in place, else append. -/
def insertC : Cache → String → Service → Cache
  | [], name, v => [(name, v)]
  | (k, w) :: t, name, v =>
      if k = name then (name, v) :: t else (k, w) :: insertC t name v

/-- `HashMap::remove`: drop the first entry with the given key. -/
def eraseC : Cache → String → Cache
  | [], _ => []
  | (k, w) :: t, name => if k = name then t else (k, w) :: eraseC t name

/-- `HashMap::extend`: insert every entry of the list in order,
overwriting keys already present. -/
def extendC (c : Cache) (entries : List (String × Service)) : Cache :=
  entries.foldl (fun acc e => insertC acc e.1 e.2) c

end Dispatch

namespace Sky

/-- `orchestrator::sky::Service` (src/orchestrator/sky/mod.rs lines
300-304): the service section of the generated document. -/
structure Service where
  readiness_probe : String
  replicas : Nat
deriving DecidableEq, Repr

/-- `orchestrator::sky::Resources` (lines 306-314). -/
structure Resources where
  ports : Nat
  cloud : String
  cpus : String
  memory : String
  disk_size : Nat
  accelerators : Option String
deriving DecidableEq, Repr

/-- `orchestrator::sky::Configuration` (lines 291-298). -/
structure Configuration where
  service : Service
  resources : Resources
  workdir : String
  setup : String
  run : String
deriving DecidableEq, Repr

/-- `impl Default for Configuration` (lines 376-398). -/
def Configuration.default : Configuration where
  service :=
    { readiness_probe := "/health"
      replicas := 2 }
  resources :=
    { ports := 8080
      cpus := "4+"
      memory := "10+"
      cloud := "aws"
      disk_size := 100
      accelerators := none }
  workdir := "."
  setup := "conda install cudatoolkit -y\npip install poetry\npoetry install\n"
  run := "poetry run python service.py\n"

/-- `Configuration::update` (lines 337-368): each `if let Some(x) =
config.f { self.g = x }` becomes a `getD`.  The override's
`readiness_probe` and `replica_up_check` fields have no corresponding
branch in the source and are not read. -/
def Configuration.update (c : Configuration) (config : UserProvidedConfig) :
    Configuration where
  service :=
    { readiness_probe := c.service.readiness_probe
      replicas := config.replicas.getD c.service.replicas }
  resources :=
    { ports := config.port.getD c.resources.ports
      cloud := config.cloud.getD c.resources.cloud
      cpus := config.cpu.getD c.resources.cpus
      memory := config.memory.getD c.resources.memory
      disk_size := config.disk_size.getD c.resources.disk_size
      accelerators :=
        match config.accelerators with
        | some a => some a
        | none => c.resources.accelerators }
  workdir := config.workdir.getD c.workdir
  setup := config.setup.getD c.setup
  run := config.run.getD c.run

/-- The empty override: every field absent. -/
def emptyOverride : UserProvidedConfig where
  port := none
  replicas := none
  readiness_probe := none
  replica_up_check := none
  cloud := none
  workdir := none
  disk_size := none
  cpu := none
  memory := none
  accelerators := none
  setup := none
  run := none

end Sky

/-- The override used to refute C5: only `readiness_probe` is present. -/
def probeOnlyOverride : UserProvidedConfig :=
  { Sky.emptyOverride with readiness_probe := some "/pulse" }

/-- A serialized field value in the external tool's document format. -/
inductive YamlValue where
  | str (s : String)
  | nat (n : Nat)
  | optStr (o : Option String)
deriving DecidableEq, Repr

/-- `impl Serialize for Resources` (src/orchestrator/sky/mod.rs lines
316-334) as the ordered list of emitted (key, value) fields: cloud,
cpus, memory, disk_size, ports are always emitted, and `accelerators`
is emitted exactly when `accelerators.is_some() || !is_human_readable`. -/
def serializeResources (r : Sky.Resources) (humanReadable : Bool) :
    List (String × YamlValue) :=
  [("cloud", .str r.cloud),
   ("cpus", .str r.cpus),
   ("memory", .str r.memory),
   ("disk_size", .nat r.disk_size),
   ("ports", .nat r.ports)] ++
  (if r.accelerators.isSome || !humanReadable then
    [("accelerators", .optStr r.accelerators)]
  else
    [])

/-- `Dispatcher::add_service` (src/dispatch/mod.rs lines 73-102).  The
cache-directory creation and the orchestrator's `setup` are external
effects, passed in as their outcomes; on success the record is inserted
with `HashMap::insert`, which replaces any record already stored under
the name. -/
def addService (cache : Dispatch.Cache) (name : String)
    (orchestrators : Orchestrators) (config : Option UserProvidedConfig)
    (dirResult : Except ServicingError Unit)
    (setupResult : Except ServicingError String) :
    Except ServicingError Unit × Dispatch.Cache :=
  match dirResult with
  | .error e => (.error e, cache)
  | .ok _ =>
    match setupResult with
    | .error e => (.error e, cache)
    | .ok filepath =>
        (.ok (),
         Dispatch.insertC cache name
           { config := config
             orchestrator := orchestrators
             filepath := some filepath
             readiness_probe := "/"
             url := none
             up := false })

/-- `Sky::remove` (src/orchestrator/sky/mod.rs lines 52-79), over the
cache it is handed: an up record fails `ClusterProvisionError("... is
still up")`, a record with an endpoint fails `ClusterProvisionError
("... is starting")`, otherwise the configuration file is deleted (an
external effect whose outcome is a parameter) and the record is removed
from the cache as the last step.  The final cache is returned alongside
the result, since in the source the mutation survives an error return. -/
def skyRemove (cache : Dispatch.Cache) (name : String)
    (deleteFileResult : Except ServicingError Unit) :
    Except ServicingError Unit × Dispatch.Cache :=
  match Dispatch.lookupC cache name with
  | none => (.error (.ServiceNotFound name), cache)
  | some service =>
    if service.up then
      (.error (.ClusterProvisionError ("Service " ++ name ++ " is still up")), cache)
    else if service.url.isSome then
      (.error (.ClusterProvisionError ("Service " ++ name ++ " is starting")), cache)
    else
      match service.filepath with
      | some _ =>
        match deleteFileResult with
        | .error e => (.error e, cache)
        | .ok _ => (.ok (), Dispatch.eraseC cache name)
      | none => (.ok (), Dispatch.eraseC cache name)

/-- `Dispatcher::remove_service` (src/dispatch/mod.rs lines 104-118):
the record is taken out of the cache with `HashMap::remove` (in order to
read its orchestrator tag), the lock is dropped, and then the
orchestrator's `remove` runs against the same shared cache — from which
the record has already disappeared. -/
def removeService (cache : Dispatch.Cache) (name : String)
    (deleteFileResult : Except ServicingError Unit) :
    Except ServicingError Unit × Dispatch.Cache :=
  match Dispatch.lookupC cache name with
  | none => (.error (.ServiceNotFound (name ++ " not found")), cache)
  | some _ => skyRemove (Dispatch.eraseC cache name) name deleteFileResult

/-- The external bring-down subcommand of `Sky::down` (src/orchestrator/
sky/mod.rs lines 215-222): `cmd.spawn()?` propagates a spawn error and
`child.wait()?` propagates a wait error, but the resulting exit status
is discarded — a non-zero exit is not an error. -/
def downSubprocess (spawnResult : Except ServicingError Unit)
    (waitResult : Except ServicingError Bool) : Except ServicingError Unit :=
  match spawnResult with
  | .error e => .error e
  | .ok _ =>
    match waitResult with
    | .error e => .error e
    | .ok _ => .ok ()

/-- `Sky::down` (src/orchestrator/sky/mod.rs lines 192-225).  The match
on the record happens under the lock: an up-or-endpoint record has both
fields cleared; a merely-registered record fails `ServiceNotUp` unless
`force == Some(true)`; a missing record fails `ServiceNotFound`.  After
the lock is released the bring-down subcommand runs. -/
def skyDown (cache : Dispatch.Cache) (name : String)
    (force : Option Bool)
    (spawnResult : Except ServicingError Unit)
    (waitResult : Except ServicingError Bool) :
    Except ServicingError Unit × Dispatch.Cache :=
  match Dispatch.lookupC cache name with
  | none => (.error (.ServiceNotFound name), cache)
  | some service =>
    if service.up || service.url.isSome then
      (downSubprocess spawnResult waitResult,
       Dispatch.insertC cache name { service with url := none, up := false })
    else
      match force with
      | some true => (downSubprocess spawnResult waitResult, cache)
      | _ => (.error (.ServiceNotUp name), cache)


/-- A character of the regex word class `\\w` (ASCII approximation):
the boundary assertion `\\b` holds next to a non-word character or at
the ends of the input. -/
def isWordChar (c : Char) : Bool := c.isAlphanum || c = '_'

/-- Greedy `\\d{1,3}` followed by a literal, matched at the head of the
input.  Because the following literal is never a digit, regex
backtracking collapses: the whole leading digit run must have length
1..3 and be followed by the literal.  Returns consumed token and rest. -/
def matchOctetThen (lit : Char) (l : List Char) : Option (List Char × List Char) :=
  let ds := l.takeWhile (fun c => c.isDigit)
  if ds.length = 0 ∨ 3 < ds.length then none
  else
    match l.drop ds.length with
    | c :: rest => if c = lit then some (ds ++ [lit], rest) else none
    | [] => none

/-- The pattern `(?:\\d{1,3}\\.){3}\\d{1,3}:\\d+\\b` matched at the head
of `l` (the leading `\\b` is checked by the caller): three octet-dot
groups, one octet-colon group, then a nonempty greedy digit run that
must end at a word boundary.  Returns the matched token. -/
def matchUrlAt (l : List Char) : Option (List Char) := do
  let (s1, r1) ← matchOctetThen '.' l
  let (s2, r2) ← matchOctetThen '.' r1
  let (s3, r3) ← matchOctetThen '.' r2
  let (s4, r4) ← matchOctetThen ':' r3
  let ds := r4.takeWhile (fun c => c.isDigit)
  if ds.length = 0 then none
  else
    match r4.drop ds.length with
    | [] => some (s1 ++ s2 ++ s3 ++ s4 ++ ds)
    | c :: _ => if isWordChar c then none else some (s1 ++ s2 ++ s3 ++ s4 ++ ds)

/-- Leftmost match: try every position whose left context satisfies
`\\b` for a leading digit (start of input, or preceded by a non-word
character). -/
def findUrlAux : Bool → List Char → Option (List Char)
  | _, [] => none
  | bOk, c :: t =>
    match (if bOk then matchUrlAt (c :: t) else none) with
    | some tok => some tok
    | none => findUrlAux (!(isWordChar c)) t

/-- `REGEX_URL.find` with the fixed pattern (src/orchestrator/sky/mod.rs
line 38), returning the matched token as a string. -/
def regexFindUrl (s : String) : Option String :=
  (findUrlAux true s.data).map List.asString

/-- The data captured by the background readiness task spawned by
`Sky::up` (src/orchestrator/sky/mod.rs lines 147-185): the polled URL
(including the `http://` prefix the future prepends), the
replica-not-ready marker, and the service name. -/
structure PollTask where
  url : String
  marker : String
  name : String
deriving DecidableEq, Repr

/-- `Sky::up` (src/orchestrator/sky/mod.rs lines 86-190), for the
template held by the orchestrator instance it runs on.  External
effects are parameters: `spawnResult` and `waitResult` for the
`sky serve up` child (`waitResult` carries `output.success()`), and
`statusResult` for the captured stdout of `sky serve status`.  Returns
the result, the final cache, and the spawned readiness task if any.
The `-y` flag from `skip_prompt` only alters the argv and is not
modelled; the `REGEX_URL` global is initialized by `setup`, so its
`ok_or` miss branch is unreachable and not modelled. -/
def skyUp (template : Sky.Configuration) (cache : Dispatch.Cache)
    (name : String)
    (spawnResult : Except ServicingError Unit)
    (waitResult : Except ServicingError Bool)
    (statusResult : Except ServicingError String) :
    Except ServicingError Unit × Dispatch.Cache × Option PollTask :=
  match Dispatch.lookupC cache name with
  | none => (.error (.ServiceNotFound name), cache, none)
  | some service =>
    if service.url.isSome then
      (.error (.ClusterProvisionError
        ("Service " ++ name ++ " is already running")), cache, none)
    else
      match service.filepath with
      | none => (.error (.General "filepath not found"), cache, none)
      | some _ =>
        match spawnResult with
        | .error e => (.error e, cache, none)
        | .ok _ =>
          match waitResult with
          | .error e => (.error e, cache, none)
          | .ok success =>
            if success = false then
              (.error (.ClusterProvisionError "Cluster provision failed"),
               cache, none)
            else
              match statusResult with
              | .error e => (.error e, cache, none)
              | .ok out =>
                match regexFindUrl out with
                | none =>
                    (.error (.General "Cannot find service URL"), cache, none)
                | some url =>
                    (.ok (),
                     Dispatch.insertC cache name { service with url := some url },
                     some { url := "http://" ++ url ++ template.service.readiness_probe
                            marker := "no ready replicas"
                            name := name })

/-- `Dispatcher::up` (src/dispatch/mod.rs lines 120-140) for a SkyPilot
record: the dispatcher looks the record up, builds a fresh orchestrator
with `Orchestrators::get_orchestrator` — for `SkyPilot` that is
`Sky::default()`, whose template is `Configuration::default()` — and
delegates.  (`Local` panics in the source and is not modelled.) -/
def dispatcherUp (cache : Dispatch.Cache) (name : String)
    (spawnResult : Except ServicingError Unit)
    (waitResult : Except ServicingError Bool)
    (statusResult : Except ServicingError String) :
    Except ServicingError Unit × Dispatch.Cache × Option PollTask :=
  match Dispatch.lookupC cache name with
  | none => (.error (.ServiceNotFound (name ++ " not found")), cache, none)
  | some _ => skyUp Sky.Configuration.default cache name
      spawnResult waitResult statusResult

/-- `pat` occurs as a contiguous substring of `s`. -/
def containsSub (s pat : String) : Bool :=
  s.data.tails.any (fun t => pat.data.isPrefixOf t)

/-- ASCII lowercasing of a string, character by character (the marker
strings involved are ASCII). -/
def strToLower (s : String) : String :=
  List.asString (s.data.map Char.toLower)

/-- `resp.to_lowercase().contains(marker)`: the replica-not-ready test
applied to a probe response. -/
def respNotReady (resp marker : String) : Bool :=
  containsSub (strToLower resp) marker

/-- One observed outcome of `helper::fetch` inside the readiness loop. -/
inductive FetchResult where
  | ok (resp : String)
  | fetchErr
deriving DecidableEq, Repr

/-- How the readiness loop ended relative to a finite trace of fetch
outcomes. -/
inductive PollDecision where
  | ready
  | stoppedOnErr
  | pending
deriving DecidableEq, Repr

/-- The control flow of the readiness loop spawned by `Sky::up`
(src/orchestrator/sky/mod.rs lines 153-184) over a finite trace of
fetch outcomes: a response containing the marker sleeps and retries; a
response without the marker breaks out to mark the service up; a fetch
error breaks out without retrying (the rest of the trace is never
consumed). -/
def pollLoopRun (marker : String) : List FetchResult → PollDecision
  | [] => .pending
  | .ok resp :: rest =>
      if respNotReady resp marker then pollLoopRun marker rest else .ready
  | .fetchErr :: _ => .stoppedOnErr

/-- The cache mutation the loop performs when it breaks: only a `ready`
break locks the cache and sets `up := true`, and only when the record
is still present (a removed record is logged and left alone). -/
def applyPollDecision (cache : Dispatch.Cache) (name : String) :
    PollDecision → Dispatch.Cache
  | .ready =>
      match Dispatch.lookupC cache name with
      | some service => Dispatch.insertC cache name { service with up := true }
      | none => cache
  | .stoppedOnErr => cache
  | .pending => cache



/-- `Sky::status` (src/orchestrator/sky/mod.rs lines 227-284).  The
reload of the resolved configuration from the on-disk file
(`sky_helper::get_template_from_path`) is an external effect passed in
as `templateResult`; the single synchronous readiness probe — executed
only when the record claims to be up and has an endpoint — is the
`probe` parameter.  A failed or marker-containing probe flips `up` back
to `false` before the snapshot of the record is serialized; the
returned `Bool` records whether the snapshot is pretty-printed
(`pretty == Some(true)`). -/
def skyStatus (cache : Dispatch.Cache) (name : String)
    (pretty : Option Bool)
    (templateResult : Except ServicingError Sky.Configuration)
    (probe : FetchResult) :
    Except ServicingError (Dispatch.Service × Bool) × Dispatch.Cache :=
  match Dispatch.lookupC cache name with
  | none => (.error (.ServiceNotFound name), cache)
  | some service =>
    match service.filepath with
    | none => (.error (.General "filepath not found"), cache)
    | some _ =>
      match templateResult with
      | .error e => (.error e, cache)
      | .ok _ =>
        let isPretty := match pretty with
          | some true => true
          | _ => false
        match service.up, service.url with
        | true, some _ =>
            let flip := match probe with
              | .fetchErr => true
              | .ok resp => respNotReady resp "no ready replicas"
            if flip then
              (.ok ({ service with up := false }, isPretty),
               Dispatch.insertC cache name { service with up := false })
            else
              (.ok (service, isPretty), cache)
        | _, _ => (.ok (service, isPretty), cache)

/-- `Dispatcher::status` (src/dispatch/mod.rs lines 169-181): a missing
name fails `ServiceNotFound("<name> not found")` before any delegation;
otherwise the SkyPilot backend's `status` runs on the shared cache. -/
def dispatcherStatus (cache : Dispatch.Cache) (name : String)
    (pretty : Option Bool)
    (templateResult : Except ServicingError Sky.Configuration)
    (probe : FetchResult) :
    Except ServicingError (Dispatch.Service × Bool) × Dispatch.Cache :=
  match Dispatch.lookupC cache name with
  | none => (.error (.ServiceNotFound (name ++ " not found")), cache)
  | some _ => skyStatus cache name pretty templateResult probe



/-- Every element of the list is a byte value. -/
def ByteList (l : List Nat) : Prop := ∀ b ∈ l, b < 256

/-- `k`-byte little-endian fixed-width integer encoding, as bincode
writes `u16`/`u32`/`u64` scalars. -/
def encLE : Nat → Nat → List Nat
  | 0, _ => []
  | k + 1, n => n % 256 :: encLE k (n / 256)

/-- Decode a `k`-byte little-endian integer, returning the value and
the remaining bytes. -/
def decLE : Nat → List Nat → Option (Nat × List Nat)
  | 0, rest => some (0, rest)
  | _ + 1, [] => none
  | k + 1, b :: rest =>
      match decLE k rest with
      | some (v, r) => some (b + 256 * v, r)
      | none => none

/-- bincode string encoding, modelled at character granularity: a u64
length prefix followed by each character's scalar value as a u32.  (The
real encoder writes a UTF-8 byte count and the UTF-8 bytes; the model
keeps the same length-prefixed shape with fixed-width scalars.) -/
def encStr (s : String) : List Nat :=
  encLE 8 s.data.length ++ (s.data.map (fun c => encLE 4 c.toNat)).flatten

/-- Decode `k` characters. -/
def decChars : Nat → List Nat → Option (List Char × List Nat)
  | 0, rest => some ([], rest)
  | k + 1, l =>
      match decLE 4 l with
      | some (v, r) =>
          match decChars k r with
          | some (cs, r2) => some (Char.ofNat v :: cs, r2)
          | none => none
      | none => none

/-- Decode a length-prefixed string. -/
def decStr (l : List Nat) : Option (String × List Nat) :=
  match decLE 8 l with
  | some (n, r) =>
      match decChars n r with
      | some (cs, r2) => some (List.asString cs, r2)
      | none => none
  | none => none

/-- bincode `Option<T>`: a one-byte tag, 0 for `None`, 1 followed by the
payload for `Some`. -/
def encOpt {α : Type} (enc : α → List Nat) : Option α → List Nat
  | none => [0]
  | some a => 1 :: enc a

/-- Decode a bincode `Option<T>`. -/
def decOpt {α : Type} (dec : List Nat → Option (α × List Nat)) :
    List Nat → Option (Option α × List Nat)
  | 0 :: r => some (none, r)
  | 1 :: r =>
      match dec r with
      | some (a, r2) => some (some a, r2)
      | none => none
  | _ => none

/-- bincode `bool`: one byte, 0 or 1. -/
def encBool (b : Bool) : List Nat := [if b then 1 else 0]

/-- Decode a bincode `bool`. -/
def decBool : List Nat → Option (Bool × List Nat)
  | 0 :: r => some (false, r)
  | 1 :: r => some (true, r)
  | _ => none

/-- bincode enum tag for `Orchestrators`: the u32 variant index. -/
def encOrch : Orchestrators → List Nat
  | .SkyPilot => encLE 4 0
  | .Local => encLE 4 1

/-- Decode an `Orchestrators` variant index. -/
def decOrch (l : List Nat) : Option (Orchestrators × List Nat) :=
  match decLE 4 l with
  | some (0, r) => some (.SkyPilot, r)
  | some (1, r) => some (.Local, r)
  | _ => none

/-- bincode encoding of `UserProvidedConfig`: its twelve optional
fields in declaration order. -/
def encCfg (c : UserProvidedConfig) : List Nat :=
  encOpt (encLE 2) c.port ++ encOpt (encLE 2) c.replicas ++
  encOpt encStr c.readiness_probe ++ encOpt encStr c.replica_up_check ++
  encOpt encStr c.cloud ++ encOpt encStr c.workdir ++
  encOpt (encLE 2) c.disk_size ++ encOpt encStr c.cpu ++
  encOpt encStr c.memory ++ encOpt encStr c.accelerators ++
  encOpt encStr c.setup ++ encOpt encStr c.run

/-- Sequence two decoding steps: run the second on the remainder of a
successful first step. -/
def decSeq {α β : Type} (d : Option (α × List Nat))
    (f : α → List Nat → Option (β × List Nat)) : Option (β × List Nat) :=
  match d with
  | some (a, r) => f a r
  | none => none

/-- Decode a `UserProvidedConfig`. -/
def decCfg (l : List Nat) : Option (UserProvidedConfig × List Nat) :=
  decSeq (decOpt (decLE 2) l) fun port r1 =>
  decSeq (decOpt (decLE 2) r1) fun replicas r2 =>
  decSeq (decOpt decStr r2) fun rp r3 =>
  decSeq (decOpt decStr r3) fun ruc r4 =>
  decSeq (decOpt decStr r4) fun cloud r5 =>
  decSeq (decOpt decStr r5) fun workdir r6 =>
  decSeq (decOpt (decLE 2) r6) fun ds r7 =>
  decSeq (decOpt decStr r7) fun cpu r8 =>
  decSeq (decOpt decStr r8) fun mem r9 =>
  decSeq (decOpt decStr r9) fun acc r10 =>
  decSeq (decOpt decStr r10) fun setupScript r11 =>
  decSeq (decOpt decStr r11) fun runScript r12 =>
  some ({ port := port, replicas := replicas, readiness_probe := rp,
          replica_up_check := ruc, cloud := cloud, workdir := workdir,
          disk_size := ds, cpu := cpu, memory := mem, accelerators := acc,
          setup := setupScript, run := runScript }, r12)

/-- bincode encoding of `dispatch::Service`: its six fields in
declaration order (`PathBuf` encodes like a string). -/
def encService (sv : Dispatch.Service) : List Nat :=
  encOpt encCfg sv.config ++ encOrch sv.orchestrator ++
  encOpt encStr sv.filepath ++ encStr sv.readiness_probe ++
  encOpt encStr sv.url ++ encBool sv.up

/-- Decode a `dispatch::Service`. -/
def decService (l : List Nat) : Option (Dispatch.Service × List Nat) :=
  decSeq (decOpt decCfg l) fun config r1 =>
  decSeq (decOrch r1) fun orch r2 =>
  decSeq (decOpt decStr r2) fun filepath r3 =>
  decSeq (decStr r3) fun rp r4 =>
  decSeq (decOpt decStr r4) fun url r5 =>
  decSeq (decBool r5) fun up r6 =>
  some ({ config := config, orchestrator := orch, filepath := filepath,
          readiness_probe := rp, url := url, up := up }, r6)

/-- The concatenated encodings of the map entries, in iteration order. -/
def encEntries : List (String × Dispatch.Service) → List Nat
  | [] => []
  | e :: t => encStr e.1 ++ encService e.2 ++ encEntries t

/-- Decode `k` map entries. -/
def decEntries : Nat → List Nat → Option (List (String × Dispatch.Service) × List Nat)
  | 0, rest => some ([], rest)
  | k + 1, l =>
      decSeq (decStr l) fun name r1 =>
      decSeq (decService r1) fun sv r2 =>
      decSeq (decEntries k r2) fun t r3 =>
      some ((name, sv) :: t, r3)

/-- `bincode::serialize` of the cache map: a u64 entry count followed by
the entries. -/
def encMap (m : Dispatch.Cache) : List Nat :=
  encLE 8 m.length ++ encEntries m

/-- `bincode::deserialize::<HashMap<String, Service>>`. -/
def decMap (l : List Nat) : Option (List (String × Dispatch.Service) × List Nat) :=
  match decLE 8 l with
  | some (n, r) => decEntries n r
  | none => none

/-- Standard base64 of a byte list, at the level of the emitted symbol
values: sextets 0..63, with 64 standing for the `=` pad.  (The actual
encoder maps each symbol through the fixed injective alphabet; the
model stays at symbol level.) -/
def encodeB64 : List Nat → List Nat
  | [] => []
  | [a] => [a / 4, a % 4 * 16, 64, 64]
  | [a, b] => [a / 4, a % 4 * 16 + b / 16, b % 16 * 4, 64]
  | a :: b :: c :: t =>
      a / 4 :: (a % 4 * 16 + b / 16) :: (b % 16 * 4 + c / 64) :: c % 64 ::
        encodeB64 t

/-- Base64 decoding of a symbol stream produced by `encodeB64`. -/
def decodeB64 : List Nat → Option (List Nat)
  | [] => some []
  | w :: x :: y :: z :: t =>
      if z = 64 then
        if y = 64 then
          match t with
          | [] => some [w * 4 + x / 16]
          | _ => none
        else
          match t with
          | [] => some [w * 4 + x / 16, x % 16 * 16 + y / 4]
          | _ => none
      else
        match decodeB64 t with
        | some bs =>
            some ((w * 4 + x / 16) :: (x % 16 * 16 + y / 4) ::
              (y % 4 * 64 + z) :: bs)
        | none => none
  | _ => none

/-- `Dispatcher::save_as_b64` (src/dispatch/mod.rs lines 208-212):
base64 of the bincode serialization of the cache map. -/
def saveAsB64 (m : Dispatch.Cache) : List Nat :=
  encodeB64 (encMap m)

/-- `Dispatcher::load_from_b64` (src/dispatch/mod.rs lines 325-332):
base64-decode, bincode-deserialize, and `extend` the in-memory cache
with the decoded entries (overwriting colliding keys). -/
def loadFromB64 (existing : Dispatch.Cache) (payload : List Nat) :
    Except ServicingError Dispatch.Cache :=
  match decodeB64 payload with
  | none => .error .DecodeError
  | some bin =>
    match decMap bin with
    | some (entries, _) => .ok (Dispatch.extendC existing entries)
    | none => .error .BinaryEncodeError

/-- Bound on an optional payload. -/
def OptBounded {α : Type} (P : α → Prop) : Option α → Prop
  | none => True
  | some a => P a

instance {α : Type} {P : α → Prop} [DecidablePred P] :
    (o : Option α) → Decidable (OptBounded P o)
  | none => .isTrue trivial
  | some a => inferInstanceAs (Decidable (P a))

/-- A string whose length fits the u64 length prefix. -/
def StrBounded (s : String) : Prop := s.data.length < 2 ^ 64

instance : DecidablePred StrBounded :=
  fun s => inferInstanceAs (Decidable (s.data.length < 2 ^ 64))

/-- A `u16` value in range. -/
def U16Bounded (n : Nat) : Prop := n < 2 ^ 16

instance : DecidablePred U16Bounded :=
  fun n => inferInstanceAs (Decidable (n < 2 ^ 16))

/-- All machine-width constraints of a `UserProvidedConfig`. -/
def CfgBounded (c : UserProvidedConfig) : Prop :=
  OptBounded U16Bounded c.port ∧ OptBounded U16Bounded c.replicas ∧
  OptBounded StrBounded c.readiness_probe ∧
  OptBounded StrBounded c.replica_up_check ∧
  OptBounded StrBounded c.cloud ∧ OptBounded StrBounded c.workdir ∧
  OptBounded U16Bounded c.disk_size ∧ OptBounded StrBounded c.cpu ∧
  OptBounded StrBounded c.memory ∧ OptBounded StrBounded c.accelerators ∧
  OptBounded StrBounded c.setup ∧ OptBounded StrBounded c.run

instance : DecidablePred CfgBounded := by
  intro c
  unfold CfgBounded
  infer_instance

/-- All machine-width constraints of a `dispatch::Service`. -/
def ServiceBounded (sv : Dispatch.Service) : Prop :=
  OptBounded CfgBounded sv.config ∧ OptBounded StrBounded sv.filepath ∧
  StrBounded sv.readiness_probe ∧ OptBounded StrBounded sv.url

instance : DecidablePred ServiceBounded := by
  intro sv
  unfold ServiceBounded
  infer_instance

/-- All machine-width constraints of a cache map to be persisted. -/
def CacheBounded (m : Dispatch.Cache) : Prop :=
  m.length < 2 ^ 64 ∧ ∀ e ∈ m, StrBounded e.1 ∧ ServiceBounded e.2

instance : (m : Dispatch.Cache) → Decidable (CacheBounded m) := by
  intro m
  unfold CacheBounded
  infer_instance



/-- A persisted record with every interesting field populated, for the
round-trip scenario. -/
def persistedSvcA : Dispatch.Service :=
  { config := some { Sky.emptyOverride with port := some 9000 },
    orchestrator := .SkyPilot, filepath := some "api_service.yaml",
    readiness_probe := "/", url := some "10.0.0.5:30000", up := true }

/-- A second persisted record with the optional fields absent. -/
def persistedSvcB : Dispatch.Service :=
  { config := none, orchestrator := .Local, filepath := none,
    readiness_probe := "/x", url := none, up := false }

/-- The two-service cache of the round-trip scenario. -/
def twoServiceCache : Dispatch.Cache :=
  [("api", persistedSvcA), ("db", persistedSvcB)]


-- ===================== THEOREMS =====================

theorem Dispatch.lookupC_insertC (c : Cache) (name : String) (v : Service) (k : String) :
    lookupC (insertC c name v) k = if name = k then some v else lookupC c k := by
  induction c with
  | nil =>
      by_cases h : name = k <;> simp [insertC, lookupC, h]
  | cons hd t ih =>
      obtain ⟨k', w⟩ := hd
      by_cases h1 : k' = name
      · subst h1
        by_cases h2 : k' = k <;> simp [insertC, lookupC, h2]
      · by_cases h2 : k' = k
        · subst h2
          have : ¬ name = k' := fun h => h1 h.symm
          simp [insertC, lookupC, h1, this]
        · simp [insertC, lookupC, h1, h2, ih]

theorem Dispatch.lookupC_eq_none_of_not_mem (c : Cache) (name : String)
    (h : name ∉ c.map Prod.fst) : lookupC c name = none := by
  induction c with
  | nil => simp [lookupC]
  | cons hd t ih =>
      obtain ⟨k, w⟩ := hd
      simp only [List.map_cons, List.mem_cons] at h
      push_neg at h
      have hk : ¬ k = name := fun hk => h.1 hk.symm
      simp only [lookupC, if_neg hk]
      exact ih h.2

theorem Dispatch.lookupC_eraseC_self (c : Cache) (name : String)
    (hnd : (c.map Prod.fst).Nodup) :
    lookupC (eraseC c name) name = none := by
  induction c with
  | nil => simp [eraseC, lookupC]
  | cons hd t ih =>
      obtain ⟨k, w⟩ := hd
      simp only [List.map_cons, List.nodup_cons] at hnd
      by_cases h : k = name
      · subst h
        simp only [eraseC, if_pos rfl]
        exact lookupC_eq_none_of_not_mem t k hnd.1
      · simp [eraseC, lookupC, h, ih hnd.2]

theorem Option_getD_getD {α : Type} (x : Option α) (d : α) :
    x.getD (x.getD d) = x.getD d := by
  cases x <;> rfl

/-- C5 counterexample: the override carries `readiness_probe = "/pulse"`,
a value different from the default `"/health"`, yet merging it onto the
default configuration changes nothing: `Configuration::update` has no
branch for `readiness_probe` (nor for `replica_up_check`), so a field
the override can carry is not applied. -/
theorem sky_update_ignores_probe_override :
    probeOnlyOverride.readiness_probe = some "/pulse" ∧
    Sky.Configuration.default.service.readiness_probe ≠ "/pulse" ∧
    Sky.Configuration.default.update probeOnlyOverride = Sky.Configuration.default := by
  refine ⟨rfl, by decide, rfl⟩

/-- C5 (amended): merging a sparse override onto the default
configuration applies exactly the ten supported fields (port, replicas,
cloud, workdir, disk_size, cpu, memory, setup, run, accelerators) when
present, leaves every absent field at its default value, and ignores the
override's `readiness_probe` and `replica_up_check` fields even when
they are present. -/
theorem sky_update_default_changes_exactly_supported_fields
    (o : UserProvidedConfig) :
    (∀ x, o.port = some x →
      (Sky.Configuration.default.update o).resources.ports = x) ∧
    (o.port = none → (Sky.Configuration.default.update o).resources.ports =
      Sky.Configuration.default.resources.ports) ∧
    (∀ x, o.replicas = some x →
      (Sky.Configuration.default.update o).service.replicas = x) ∧
    (o.replicas = none → (Sky.Configuration.default.update o).service.replicas =
      Sky.Configuration.default.service.replicas) ∧
    (∀ x, o.cloud = some x →
      (Sky.Configuration.default.update o).resources.cloud = x) ∧
    (o.cloud = none → (Sky.Configuration.default.update o).resources.cloud =
      Sky.Configuration.default.resources.cloud) ∧
    (∀ x, o.workdir = some x →
      (Sky.Configuration.default.update o).workdir = x) ∧
    (o.workdir = none → (Sky.Configuration.default.update o).workdir =
      Sky.Configuration.default.workdir) ∧
    (∀ x, o.disk_size = some x →
      (Sky.Configuration.default.update o).resources.disk_size = x) ∧
    (o.disk_size = none → (Sky.Configuration.default.update o).resources.disk_size =
      Sky.Configuration.default.resources.disk_size) ∧
    (∀ x, o.cpu = some x →
      (Sky.Configuration.default.update o).resources.cpus = x) ∧
    (o.cpu = none → (Sky.Configuration.default.update o).resources.cpus =
      Sky.Configuration.default.resources.cpus) ∧
    (∀ x, o.memory = some x →
      (Sky.Configuration.default.update o).resources.memory = x) ∧
    (o.memory = none → (Sky.Configuration.default.update o).resources.memory =
      Sky.Configuration.default.resources.memory) ∧
    (∀ x, o.setup = some x →
      (Sky.Configuration.default.update o).setup = x) ∧
    (o.setup = none → (Sky.Configuration.default.update o).setup =
      Sky.Configuration.default.setup) ∧
    (∀ x, o.run = some x →
      (Sky.Configuration.default.update o).run = x) ∧
    (o.run = none → (Sky.Configuration.default.update o).run =
      Sky.Configuration.default.run) ∧
    (∀ x, o.accelerators = some x →
      (Sky.Configuration.default.update o).resources.accelerators = some x) ∧
    (o.accelerators = none →
      (Sky.Configuration.default.update o).resources.accelerators =
        Sky.Configuration.default.resources.accelerators) ∧
    (Sky.Configuration.default.update o).service.readiness_probe =
      Sky.Configuration.default.service.readiness_probe := by
  repeat' apply And.intro
  all_goals
    first
      | (intro x hx; simp [Sky.Configuration.update, hx])
      | (intro hx; simp [Sky.Configuration.update, hx])
      | simp [Sky.Configuration.update]

/-- C6: `Configuration::update` is idempotent — applying the same sparse
override twice yields the same configuration as applying it once. -/
theorem sky_update_idempotent (c : Sky.Configuration) (o : UserProvidedConfig) :
    (c.update o).update o = c.update o := by
  obtain ⟨⟨rp, reps⟩, ⟨po, cl, cp, me, ds, ac⟩, wd, su, ru⟩ := c
  cases h : o.accelerators <;>
    simp [Sky.Configuration.update, h, Option_getD_getD]

/-- C9: in the human-readable (YAML) encoding, the `accelerators` key is
emitted iff the field is set; when unset, no key (and hence no null
value) appears at all. -/
theorem serializeResources_omits_unset_accelerators (r : Sky.Resources) :
    ("accelerators" ∈ (serializeResources r true).map Prod.fst ↔
      r.accelerators.isSome = true) ∧
    (∀ a, r.accelerators = some a →
      ("accelerators", YamlValue.optStr (some a)) ∈ serializeResources r true) := by
  cases h : r.accelerators <;> simp [serializeResources, h]

/-- C10: `add_service` on a name already present in the cache does not
fail because of the duplicate; it replaces the old record with a fresh
one whose `url` is `None` and whose `up` is `false`, discarding the
previously recorded endpoint and readiness state. -/
theorem addService_overwrites_existing (cache : Dispatch.Cache)
    (name : String) (old : Dispatch.Service) (orchestrators : Orchestrators)
    (config : Option UserProvidedConfig) (fp : String)
    (hold : Dispatch.lookupC cache name = some old) :
    addService cache name orchestrators config (.ok ()) (.ok fp) =
      (.ok (),
       Dispatch.insertC cache name
         { config := config, orchestrator := orchestrators,
           filepath := some fp, readiness_probe := "/",
           url := none, up := false }) ∧
    Dispatch.lookupC
      (addService cache name orchestrators config (.ok ()) (.ok fp)).2 name =
      some { config := config, orchestrator := orchestrators,
             filepath := some fp, readiness_probe := "/",
             url := none, up := false } := by
  refine ⟨rfl, ?_⟩
  simp [addService, Dispatch.lookupC_insertC]

/-- Witness for C10: a cache holding `"svc"` with a recorded endpoint
and `up = true`; re-adding `"svc"` succeeds and resets both fields. -/
theorem addService_overwrites_existing_witness :
    Dispatch.lookupC
        [("svc",
          { config := none, orchestrator := .SkyPilot,
            filepath := some "old.yaml", readiness_probe := "/",
            url := some "1.2.3.4:80", up := true })] "svc" =
      some { config := none, orchestrator := .SkyPilot,
             filepath := some "old.yaml", readiness_probe := "/",
             url := some "1.2.3.4:80", up := true } ∧
    Dispatch.lookupC
      (addService
        [("svc",
          { config := none, orchestrator := .SkyPilot,
            filepath := some "old.yaml", readiness_probe := "/",
            url := some "1.2.3.4:80", up := true })]
        "svc" .SkyPilot none (.ok ()) (.ok "new.yaml")).2 "svc" =
      some { config := none, orchestrator := .SkyPilot,
             filepath := some "new.yaml", readiness_probe := "/",
             url := none, up := false } := by
  refine ⟨by decide, ?_⟩
  exact (addService_overwrites_existing
    [("svc",
      { config := none, orchestrator := .SkyPilot,
        filepath := some "old.yaml", readiness_probe := "/",
        url := some "1.2.3.4:80", up := true })]
    "svc"
    { config := none, orchestrator := .SkyPilot,
      filepath := some "old.yaml", readiness_probe := "/",
      url := some "1.2.3.4:80", up := true }
    .SkyPilot none "new.yaml" (by decide)).2

/-- C1 failing input: `remove_service` pre-removes the record before
delegating, so `Sky::remove` never sees it.  On a record that is up
(and on a fully-down record alike) the composed operation returns
`ServiceNotFound` — not the provisioning error the claim requires — and
the record is gone from the cache even though the call failed; the
configuration file is never deleted. -/
theorem removeService_always_not_found :
    removeService
        [("svc",
          { config := none, orchestrator := .SkyPilot,
            filepath := some "svc_service.yaml", readiness_probe := "/",
            url := some "1.2.3.4:80", up := true })]
        "svc" (.ok ()) =
      (.error (.ServiceNotFound "svc"), []) ∧
    removeService
        [("svc",
          { config := none, orchestrator := .SkyPilot,
            filepath := some "svc_service.yaml", readiness_probe := "/",
            url := none, up := false })]
        "svc" (.ok ()) =
      (.error (.ServiceNotFound "svc"), []) := by
  exact ⟨rfl, rfl⟩

/-- C3 counterexample: a record that is up, brought down with a
subprocess that exits with a non-zero status (`.ok false`): `down`
returns success, because `child.wait()?` only propagates I/O errors and
the exit status is never checked.  The claim's "a non-zero exit is a
hard failure" is false of the code. -/
theorem skyDown_ignores_nonzero_exit :
    skyDown
        [("svc",
          { config := none, orchestrator := .SkyPilot,
            filepath := some "svc_service.yaml", readiness_probe := "/",
            url := some "1.2.3.4:80", up := true })]
        "svc" none (.ok ()) (.ok false) =
      (.ok (),
       [("svc",
         { config := none, orchestrator := .SkyPilot,
           filepath := some "svc_service.yaml", readiness_probe := "/",
           url := none, up := false })]) := by
  rfl

/-- C3 (amended): `down` on an up-or-endpoint record clears both fields
unconditionally and then invokes the bring-down subcommand, propagating
spawn and wait I/O errors but ignoring the subprocess exit status; on a
record that never reached up/has-endpoint it fails `ServiceNotUp`
unless `force == Some(true)`, in which case it still attempts the
subcommand (leaving the record unchanged). -/
theorem skyDown_spec (cache : Dispatch.Cache) (name : String)
    (service : Dispatch.Service) (force : Option Bool)
    (spawnResult : Except ServicingError Unit)
    (waitResult : Except ServicingError Bool)
    (hsvc : Dispatch.lookupC cache name = some service) :
    (service.up = true ∨ service.url.isSome = true →
      skyDown cache name force spawnResult waitResult =
        (downSubprocess spawnResult waitResult,
         Dispatch.insertC cache name { service with url := none, up := false })) ∧
    (service.up = false → service.url = none → force ≠ some true →
      skyDown cache name force spawnResult waitResult =
        (.error (.ServiceNotUp name), cache)) ∧
    (service.up = false → service.url = none → force = some true →
      skyDown cache name force spawnResult waitResult =
        (downSubprocess spawnResult waitResult, cache)) ∧
    (∀ e, spawnResult = .error e →
      downSubprocess spawnResult waitResult = .error e) ∧
    (∀ e, waitResult = .error e →
      downSubprocess (.ok ()) waitResult = .error e) ∧
    (∀ exitOk, downSubprocess (.ok ()) (.ok exitOk) = .ok ()) := by
  refine ⟨?_, ?_, ?_, ?_, ?_, ?_⟩
  · intro h
    have hcond : (service.up || service.url.isSome) = true := by
      rcases h with h | h <;> simp [h]
    simp [skyDown, hsvc, hcond]
  · intro h1 h2 h3
    have hcond : (service.up || service.url.isSome) = false := by
      simp [h1, h2]
    cases hf : force with
    | none => simp [skyDown, hsvc, hcond]
    | some b =>
        cases b with
        | false => simp [skyDown, hsvc, hcond]
        | true => exact absurd hf h3
  · intro h1 h2 h3
    have hcond : (service.up || service.url.isSome) = false := by
      simp [h1, h2]
    simp [skyDown, hsvc, hcond, h3]
  · intro e he
    simp [downSubprocess, he]
  · intro e he
    simp [downSubprocess, he]
  · intro exitOk
    simp [downSubprocess]

/-- Witness for C3 (amended): a concrete never-up record fails
`ServiceNotUp` without force and still runs the subcommand with
`force = some true`. -/
theorem skyDown_spec_witness :
    Dispatch.lookupC
        [("svc",
          { config := none, orchestrator := .SkyPilot,
            filepath := some "svc_service.yaml", readiness_probe := "/",
            url := none, up := false })] "svc" =
      some { config := none, orchestrator := .SkyPilot,
             filepath := some "svc_service.yaml", readiness_probe := "/",
             url := none, up := false } ∧
    skyDown
        [("svc",
          { config := none, orchestrator := .SkyPilot,
            filepath := some "svc_service.yaml", readiness_probe := "/",
            url := none, up := false })]
        "svc" none (.ok ()) (.ok true) =
      (.error (.ServiceNotUp "svc"),
       [("svc",
         { config := none, orchestrator := .SkyPilot,
           filepath := some "svc_service.yaml", readiness_probe := "/",
           url := none, up := false })]) := by
  refine ⟨by decide, ?_⟩
  exact ((skyDown_spec
    [("svc",
      { config := none, orchestrator := .SkyPilot,
        filepath := some "svc_service.yaml", readiness_probe := "/",
        url := none, up := false })]
    "svc"
    { config := none, orchestrator := .SkyPilot,
      filepath := some "svc_service.yaml", readiness_probe := "/",
      url := none, up := false }
    none (.ok ()) (.ok true) (by decide)).2.1 rfl rfl (by decide))

/-- C2: for a registered service, `up` fails with the already-running
provisioning error when the record has an endpoint (leaving the cache
unchanged); otherwise, given a zero-exit `sky serve up`, it scans the
`sky serve status` stdout with the fixed IPv4-address:port pattern,
fails `General("Cannot find service URL")` when there is no match, and
on a match stores the matched token as the record's endpoint. -/
theorem skyUp_spec (template : Sky.Configuration) (cache : Dispatch.Cache)
    (name : String) (service : Dispatch.Service) (fp out : String)
    (hsvc : Dispatch.lookupC cache name = some service) :
    (∀ u, service.url = some u →
      ∀ sp wt st, skyUp template cache name sp wt st =
        (.error (.ClusterProvisionError
          ("Service " ++ name ++ " is already running")), cache, none)) ∧
    (service.url = none → service.filepath = some fp →
      (regexFindUrl out = none →
        skyUp template cache name (.ok ()) (.ok true) (.ok out) =
          (.error (.General "Cannot find service URL"), cache, none)) ∧
      (∀ tok, regexFindUrl out = some tok →
        skyUp template cache name (.ok ()) (.ok true) (.ok out) =
          (.ok (),
           Dispatch.insertC cache name { service with url := some tok },
           some { url := "http://" ++ tok ++ template.service.readiness_probe,
                  marker := "no ready replicas", name := name }))) := by
  refine ⟨?_, ?_⟩
  · intro u hu sp wt st
    simp [skyUp, hsvc, hu]
  · intro hu hfp
    refine ⟨?_, ?_⟩
    · intro hfind
      simp [skyUp, hsvc, hu, hfp, hfind]
    · intro tok hfind
      simp [skyUp, hsvc, hu, hfp, hfind]

/-- Witness for C2: the `"api"` record with no endpoint; the status
stdout carries `10.0.0.5:30000`, which the pattern extracts and stores
as the endpoint. -/
theorem skyUp_spec_witness :
    Dispatch.lookupC
        [("api",
          { config := none, orchestrator := .SkyPilot,
            filepath := some "api_service.yaml", readiness_probe := "/",
            url := none, up := false })] "api" =
      some { config := none, orchestrator := .SkyPilot,
             filepath := some "api_service.yaml", readiness_probe := "/",
             url := none, up := false } ∧
    regexFindUrl "Services\nNAME  api  1  10.0.0.5:30000  READY" =
      some "10.0.0.5:30000" ∧
    skyUp Sky.Configuration.default
        [("api",
          { config := none, orchestrator := .SkyPilot,
            filepath := some "api_service.yaml", readiness_probe := "/",
            url := none, up := false })]
        "api" (.ok ()) (.ok true)
        (.ok "Services\nNAME  api  1  10.0.0.5:30000  READY") =
      (.ok (),
       Dispatch.insertC
         [("api",
           { config := none, orchestrator := .SkyPilot,
             filepath := some "api_service.yaml", readiness_probe := "/",
             url := none, up := false })]
         "api"
         { config := none, orchestrator := .SkyPilot,
           filepath := some "api_service.yaml", readiness_probe := "/",
           url := some "10.0.0.5:30000", up := false },
       some { url := "http://10.0.0.5:30000/health",
              marker := "no ready replicas", name := "api" }) := by
  refine ⟨by decide, by rfl, ?_⟩
  exact ((skyUp_spec Sky.Configuration.default
    [("api",
      { config := none, orchestrator := .SkyPilot,
        filepath := some "api_service.yaml", readiness_probe := "/",
        url := none, up := false })]
    "api"
    { config := none, orchestrator := .SkyPilot,
      filepath := some "api_service.yaml", readiness_probe := "/",
      url := none, up := false }
    "api_service.yaml" "Services\nNAME  api  1  10.0.0.5:30000  READY"
    (by decide)).2 rfl rfl).2 "10.0.0.5:30000" (by rfl)

/-- C4 counterexample: `Dispatcher::up` dispatches to a freshly built
`Sky::default()`, so the spawned readiness task polls at the template's
readiness-probe path `"/health"` — while the record's
`readiness_probe` field is `"/"` (the default `add_service` writes) and
is never consulted.  The claim's "polls ... at the record's
readiness-probe path (default `/`)" is false at this input. -/
theorem dispatcherUp_polls_template_path :
    (Dispatch.lookupC
        [("svc",
          { config := none, orchestrator := .SkyPilot,
            filepath := some "svc_service.yaml", readiness_probe := "/",
            url := none, up := false })] "svc").map
      (fun s => s.readiness_probe) = some "/" ∧
    dispatcherUp
        [("svc",
          { config := none, orchestrator := .SkyPilot,
            filepath := some "svc_service.yaml", readiness_probe := "/",
            url := none, up := false })]
        "svc" (.ok ()) (.ok true) (.ok "endpoint 1.2.3.4:80") =
      (.ok (),
       [("svc",
         { config := none, orchestrator := .SkyPilot,
           filepath := some "svc_service.yaml", readiness_probe := "/",
           url := some "1.2.3.4:80", up := false })],
       some { url := "http://1.2.3.4:80/health",
              marker := "no ready replicas", name := "svc" }) ∧
    "http://1.2.3.4:80/health" ≠ "http://1.2.3.4:80/" := by
  refine ⟨by rfl, by rfl, by decide⟩

/-- C4 (amended): the readiness loop spawned by a successful `up` polls
the endpoint at the orchestrator template's readiness-probe path
(`"/health"` for the dispatched default template), not the record's
`readiness_probe` field; it flips `is_up` to true exactly when a probe
response no longer contains the lowercased marker `"no ready replicas"`;
it terminates without retry on a transport-level error (the rest of the
trace is never inspected); and it never sets `is_up` on a record that
has been removed in the meantime. -/
theorem pollLoop_spec (marker name : String) (cache : Dispatch.Cache) :
    (∀ resp rest, respNotReady resp marker = false →
      pollLoopRun marker (.ok resp :: rest) = .ready) ∧
    (∀ resp rest, respNotReady resp marker = true →
      pollLoopRun marker (.ok resp :: rest) = pollLoopRun marker rest) ∧
    (∀ rest, pollLoopRun marker (.fetchErr :: rest) = .stoppedOnErr) ∧
    (∀ d, d ≠ .ready → applyPollDecision cache name d = cache) ∧
    (Dispatch.lookupC cache name = none →
      ∀ d, applyPollDecision cache name d = cache) ∧
    (∀ service, Dispatch.lookupC cache name = some service →
      applyPollDecision cache name .ready =
        Dispatch.insertC cache name { service with up := true }) := by
  refine ⟨?_, ?_, ?_, ?_, ?_, ?_⟩
  · intro resp rest h
    simp [pollLoopRun, h]
  · intro resp rest h
    simp [pollLoopRun, h]
  · intro rest
    simp [pollLoopRun]
  · intro d hd
    cases d with
    | ready => exact absurd rfl hd
    | stoppedOnErr => rfl
    | pending => rfl
  · intro h d
    cases d <;> simp [applyPollDecision, h]
  · intro service h
    simp [applyPollDecision, h]

/-- Witness for C4 (amended): a not-ready response keeps the loop
polling, a ready response breaks it, a transport error stops it, and on
an emptied cache the ready break mutates nothing. -/
theorem pollLoop_spec_witness :
    respNotReady "No ready replicas yet" "no ready replicas" = true ∧
    respNotReady "pong" "no ready replicas" = false ∧
    pollLoopRun "no ready replicas"
      [.ok "No ready replicas yet", .ok "pong"] = .ready ∧
    pollLoopRun "no ready replicas" [.fetchErr, .ok "pong"] = .stoppedOnErr ∧
    Dispatch.lookupC [] "svc" = none ∧
    applyPollDecision [] "svc" .ready = [] := by
  refine ⟨by rfl, by rfl, ?_, ?_, by rfl, ?_⟩
  · have h1 := (pollLoop_spec "no ready replicas" "svc" []).2.1
      "No ready replicas yet" [.ok "pong"] (by rfl)
    have h2 := (pollLoop_spec "no ready replicas" "svc" []).1 "pong" [] (by rfl)
    rw [h1, h2]
  · exact (pollLoop_spec "no ready replicas" "svc" []).2.2.1 [.ok "pong"]
  · exact (pollLoop_spec "no ready replicas" "svc" []).2.2.2.2.1 (by rfl)
      PollDecision.ready

/-- C7: `status` on an unregistered name fails `ServiceNotFound` naming
that service; on a registered record that claims to be up (`is_up` true
with an endpoint) it performs exactly one synchronous probe (the single
`probe` argument of the model) and flips `is_up` back to false iff the
probe fails or its response contains the not-ready marker, before the
(possibly flipped) record snapshot is returned, pretty-printed iff the
flag is `Some(true)`. -/
theorem status_spec (cache : Dispatch.Cache) (name : String)
    (service : Dispatch.Service) (fp : String) (pretty : Option Bool)
    (template : Sky.Configuration) (probe : FetchResult) :
    (Dispatch.lookupC cache name = none →
      dispatcherStatus cache name pretty (.ok template) probe =
        (.error (.ServiceNotFound (name ++ " not found")), cache)) ∧
    (Dispatch.lookupC cache name = some service →
      service.filepath = some fp →
      service.up = true → ∀ u, service.url = some u →
      (probe = .fetchErr ∨
          (∃ resp, probe = .ok resp ∧
            respNotReady resp "no ready replicas" = true) →
        dispatcherStatus cache name pretty (.ok template) probe =
          (.ok ({ service with up := false },
                 match pretty with | some true => true | _ => false),
           Dispatch.insertC cache name { service with up := false })) ∧
      (∀ resp, probe = .ok resp →
          respNotReady resp "no ready replicas" = false →
        dispatcherStatus cache name pretty (.ok template) probe =
          (.ok (service,
                 match pretty with | some true => true | _ => false),
           cache))) := by
  refine ⟨?_, ?_⟩
  · intro h
    simp [dispatcherStatus, h]
  · intro hsvc hfp hup u hurl
    refine ⟨?_, ?_⟩
    · intro hflip
      rcases hflip with h | ⟨resp, hp, hm⟩
      · simp [dispatcherStatus, skyStatus, hsvc, hfp, hup, hurl, h]
      · simp [dispatcherStatus, skyStatus, hsvc, hfp, hup, hurl, hp, hm]
    · intro resp hp hm
      simp [dispatcherStatus, skyStatus, hsvc, hfp, hup, hurl, hp, hm]

/-- Witness for C7: `status("missing")` on an empty cache is
`ServiceNotFound`, and a not-ready probe response flips the up record
of a one-service cache back down. -/
theorem status_spec_witness :
    dispatcherStatus [] "missing" none
        (.ok Sky.Configuration.default) (.ok "pong") =
      (.error (.ServiceNotFound "missing not found"), []) ∧
    dispatcherStatus
        [("svc",
          { config := none, orchestrator := .SkyPilot,
            filepath := some "svc_service.yaml", readiness_probe := "/",
            url := some "1.2.3.4:80", up := true })]
        "svc" (some true) (.ok Sky.Configuration.default)
        (.ok "No ready replicas yet") =
      (.ok ({ config := none, orchestrator := .SkyPilot,
              filepath := some "svc_service.yaml", readiness_probe := "/",
              url := some "1.2.3.4:80", up := false }, true),
       [("svc",
         { config := none, orchestrator := .SkyPilot,
           filepath := some "svc_service.yaml", readiness_probe := "/",
           url := some "1.2.3.4:80", up := false })]) := by
  refine ⟨?_, ?_⟩
  · exact (status_spec [] "missing"
      { config := none, orchestrator := .SkyPilot,
        filepath := none, readiness_probe := "/",
        url := none, up := false }
      "" none Sky.Configuration.default (.ok "pong")).1 rfl
  · exact ((status_spec
      [("svc",
        { config := none, orchestrator := .SkyPilot,
          filepath := some "svc_service.yaml", readiness_probe := "/",
          url := some "1.2.3.4:80", up := true })]
      "svc"
      { config := none, orchestrator := .SkyPilot,
        filepath := some "svc_service.yaml", readiness_probe := "/",
        url := some "1.2.3.4:80", up := true }
      "svc_service.yaml" (some true) Sky.Configuration.default
      (.ok "No ready replicas yet")).2 (by decide) rfl rfl "1.2.3.4:80" rfl).1
      (Or.inr ⟨"No ready replicas yet", rfl, by rfl⟩)

theorem decLE_encLE (k : Nat) : ∀ n : Nat, n < 256 ^ k →
    ∀ rest, decLE k (encLE k n ++ rest) = some (n, rest) := by
  induction k with
  | zero =>
      intro n h rest
      have hn : n = 0 := by
        have : n < 1 := h
        omega
      subst hn
      rfl
  | succ k ih =>
      intro n h rest
      have h' : n < 256 * 256 ^ k := by
        rw [Nat.mul_comm, ← pow_succ]
        exact h
      have hdiv : n / 256 < 256 ^ k := Nat.div_lt_of_lt_mul h'
      simp only [encLE, List.cons_append, decLE, List.append_eq,
        ih (n / 256) hdiv rest]
      rw [Nat.mod_add_div]

theorem charToNat_lt (c : Char) : c.toNat < 256 ^ 4 := by
  have h := c.val.toNat_lt
  have he : (256 : Nat) ^ 4 = 2 ^ 32 := by norm_num
  rw [he]
  simpa using h

theorem decChars_encChars (cs : List Char) : ∀ rest,
    decChars cs.length ((cs.map (fun c => encLE 4 c.toNat)).flatten ++ rest) =
      some (cs, rest) := by
  induction cs with
  | nil =>
      intro rest
      rfl
  | cons c t ih =>
      intro rest
      simp only [List.map_cons, List.flatten_cons, List.length_cons,
        List.append_assoc, decChars]
      rw [decLE_encLE 4 c.toNat (charToNat_lt c)]
      simp [ih, Char.ofNat_toNat]

theorem asString_data (s : String) : List.asString s.data = s := rfl

theorem decStr_encStr (s : String) (h : StrBounded s) : ∀ rest,
    decStr (encStr s ++ rest) = some (s, rest) := by
  intro rest
  have h8 : s.data.length < 256 ^ 8 := by
    have he : (256 : Nat) ^ 8 = 2 ^ 64 := by norm_num
    rw [he]
    exact h
  have h1 := decLE_encLE 8 s.data.length h8
    ((s.data.map (fun c => encLE 4 c.toNat)).flatten ++ rest)
  have h2 := decChars_encChars s.data rest
  simp only [encStr, List.append_assoc, decStr, List.append_eq, h1, h2,
    asString_data]

theorem decOpt_encOpt {α : Type} (P : α → Prop)
    (enc : α → List Nat) (dec : List Nat → Option (α × List Nat))
    (hcomp : ∀ a, P a → ∀ rest, dec (enc a ++ rest) = some (a, rest))
    (x : Option α) (hx : OptBounded P x) : ∀ rest,
    decOpt dec (encOpt enc x ++ rest) = some (x, rest) := by
  intro rest
  cases x with
  | none => rfl
  | some a =>
      simp only [encOpt, List.cons_append, decOpt]
      rw [hcomp a hx rest]

theorem decBool_encBool (b : Bool) : ∀ rest,
    decBool (encBool b ++ rest) = some (b, rest) := by
  cases b <;> intro rest <;> rfl

theorem decOrch_encOrch (o : Orchestrators) : ∀ rest,
    decOrch (encOrch o ++ rest) = some (o, rest) := by
  cases o with
  | SkyPilot =>
      intro rest
      simp only [encOrch, decOrch, decLE_encLE 4 0 (by norm_num) rest]
  | Local =>
      intro rest
      simp only [encOrch, decOrch, decLE_encLE 4 1 (by norm_num) rest]

theorem decSeq_some {α β : Type} (a : α) (r : List Nat)
    (f : α → List Nat → Option (β × List Nat)) :
    decSeq (some (a, r)) f = f a r := rfl

theorem u16_roundtrip : ∀ a, U16Bounded a → ∀ r,
    decLE 2 (encLE 2 a ++ r) = some (a, r) :=
  fun a ha r => decLE_encLE 2 a (lt_of_lt_of_le ha (by norm_num)) r

theorem decCfg_encCfg (c : UserProvidedConfig) (hB : CfgBounded c) : ∀ rest,
    decCfg (encCfg c ++ rest) = some (c, rest) := by
  obtain ⟨port, replicas, rp, ruc, cloud, wd, ds, cpu, mem, acc, su, ru⟩ := c
  obtain ⟨hp, hr, hrp, hruc, hcl, hwd, hds, hcpu, hmem, hacc, hsu, hru⟩ := hB
  intro rest
  have h1 := decOpt_encOpt U16Bounded (encLE 2) (decLE 2) u16_roundtrip port hp
  have h2 := decOpt_encOpt U16Bounded (encLE 2) (decLE 2) u16_roundtrip
    replicas hr
  have h3 := decOpt_encOpt StrBounded encStr decStr decStr_encStr rp hrp
  have h4 := decOpt_encOpt StrBounded encStr decStr decStr_encStr ruc hruc
  have h5 := decOpt_encOpt StrBounded encStr decStr decStr_encStr cloud hcl
  have h6 := decOpt_encOpt StrBounded encStr decStr decStr_encStr wd hwd
  have h7 := decOpt_encOpt U16Bounded (encLE 2) (decLE 2) u16_roundtrip ds hds
  have h8 := decOpt_encOpt StrBounded encStr decStr decStr_encStr cpu hcpu
  have h9 := decOpt_encOpt StrBounded encStr decStr decStr_encStr mem hmem
  have h10 := decOpt_encOpt StrBounded encStr decStr decStr_encStr acc hacc
  have h11 := decOpt_encOpt StrBounded encStr decStr decStr_encStr su hsu
  have h12 := decOpt_encOpt StrBounded encStr decStr decStr_encStr ru hru
  simp only [encCfg, List.append_assoc, List.append_eq, decCfg,
    h1, h2, h3, h4, h5, h6, h7, h8, h9, h10, h11, h12, decSeq_some]

theorem decService_encService (sv : Dispatch.Service) (hB : ServiceBounded sv) :
    ∀ rest, decService (encService sv ++ rest) = some (sv, rest) := by
  obtain ⟨config, orch, filepath, rp, url, up⟩ := sv
  obtain ⟨hc, hf, hrp, hu⟩ := hB
  intro rest
  have h1 := decOpt_encOpt CfgBounded encCfg decCfg decCfg_encCfg config hc
  have h2 := decOrch_encOrch orch
  have h3 := decOpt_encOpt StrBounded encStr decStr decStr_encStr filepath hf
  have h4 := decStr_encStr rp hrp
  have h5 := decOpt_encOpt StrBounded encStr decStr decStr_encStr url hu
  have h6 := decBool_encBool up
  simp only [encService, List.append_assoc, List.append_eq, decService,
    h1, h2, h3, h4, h5, h6, decSeq_some]

theorem decEntries_encEntries (m : List (String × Dispatch.Service))
    (hB : ∀ e ∈ m, StrBounded e.1 ∧ ServiceBounded e.2) : ∀ rest,
    decEntries m.length (encEntries m ++ rest) = some (m, rest) := by
  induction m with
  | nil =>
      intro rest
      rfl
  | cons e t ih =>
      intro rest
      obtain ⟨name, sv⟩ := e
      have he := hB (name, sv) (by simp)
      have h1 := decStr_encStr name he.1
      have h2 := decService_encService sv he.2
      have h3 := ih (fun e he' => hB e (by simp [he']))
      simp only [encEntries, List.length_cons, List.append_assoc,
        List.append_eq, decEntries, h1, h2, h3, decSeq_some]

theorem decMap_encMap (m : Dispatch.Cache) (hB : CacheBounded m) :
    decMap (encMap m) = some (m, []) := by
  obtain ⟨hlen, hent⟩ := hB
  have h8 : m.length < 256 ^ 8 := by
    have he : (256 : Nat) ^ 8 = 2 ^ 64 := by norm_num
    rw [he]
    exact hlen
  have h1 := decLE_encLE 8 m.length h8 (encEntries m)
  have h2 := decEntries_encEntries m hent []
  rw [List.append_nil] at h2
  simp only [encMap, decMap, h1, h2]

theorem ByteList.append {l1 l2 : List Nat} (h1 : ByteList l1)
    (h2 : ByteList l2) : ByteList (l1 ++ l2) := by
  intro b hb
  rcases List.mem_append.mp hb with h | h
  · exact h1 b h
  · exact h2 b h

theorem byteList_encLE (k : Nat) : ∀ n, ByteList (encLE k n) := by
  induction k with
  | zero =>
      intro n b hb
      simp [encLE] at hb
  | succ k ih =>
      intro n b hb
      simp only [encLE, List.mem_cons] at hb
      rcases hb with h | h
      · subst h
        exact Nat.mod_lt n (by omega)
      · exact ih (n / 256) b h

theorem byteList_encStr (s : String) : ByteList (encStr s) := by
  refine ByteList.append (byteList_encLE 8 _) ?_
  intro b hb
  rcases List.mem_flatten.mp hb with ⟨l, hl, hb2⟩
  rcases List.mem_map.mp hl with ⟨c, _, hc⟩
  subst hc
  exact byteList_encLE 4 c.toNat b hb2

theorem byteList_encOpt {α : Type} (enc : α → List Nat)
    (h : ∀ a, ByteList (enc a)) : ∀ x, ByteList (encOpt enc x) := by
  intro x b hb
  cases x with
  | none =>
      simp [encOpt] at hb
      omega
  | some a =>
      simp only [encOpt, List.mem_cons] at hb
      rcases hb with h1 | h1
      · omega
      · exact h a b h1

theorem byteList_encBool (b : Bool) : ByteList (encBool b) := by
  intro x hx
  cases b <;> simp [encBool] at hx <;> omega

theorem byteList_encOrch (o : Orchestrators) : ByteList (encOrch o) := by
  cases o with
  | SkyPilot => exact byteList_encLE 4 0
  | Local => exact byteList_encLE 4 1

theorem byteList_encCfg (c : UserProvidedConfig) : ByteList (encCfg c) := by
  refine ByteList.append (ByteList.append (ByteList.append (ByteList.append
    (ByteList.append (ByteList.append (ByteList.append (ByteList.append
    (ByteList.append (ByteList.append (ByteList.append
    (byteList_encOpt _ (byteList_encLE 2) _)
    (byteList_encOpt _ (byteList_encLE 2) _))
    (byteList_encOpt _ byteList_encStr _))
    (byteList_encOpt _ byteList_encStr _))
    (byteList_encOpt _ byteList_encStr _))
    (byteList_encOpt _ byteList_encStr _))
    (byteList_encOpt _ (byteList_encLE 2) _))
    (byteList_encOpt _ byteList_encStr _))
    (byteList_encOpt _ byteList_encStr _))
    (byteList_encOpt _ byteList_encStr _))
    (byteList_encOpt _ byteList_encStr _))
    (byteList_encOpt _ byteList_encStr _)

theorem byteList_encService (sv : Dispatch.Service) :
    ByteList (encService sv) := by
  refine ByteList.append (ByteList.append (ByteList.append (ByteList.append
    (ByteList.append
    (byteList_encOpt _ byteList_encCfg _)
    (byteList_encOrch _))
    (byteList_encOpt _ byteList_encStr _))
    (byteList_encStr _))
    (byteList_encOpt _ byteList_encStr _))
    (byteList_encBool _)

theorem byteList_encEntries (m : List (String × Dispatch.Service)) :
    ByteList (encEntries m) := by
  induction m with
  | nil =>
      intro b hb
      simp [encEntries] at hb
  | cons e t ih =>
      exact ByteList.append (ByteList.append (byteList_encStr _)
        (byteList_encService _)) ih

theorem byteList_encMap (m : Dispatch.Cache) : ByteList (encMap m) :=
  ByteList.append (byteList_encLE 8 _) (byteList_encEntries m)

theorem decodeB64_encodeB64 (l : List Nat) (h : ByteList l) :
    decodeB64 (encodeB64 l) = some l := by
  induction l using encodeB64.induct with
  | case1 => rfl
  | case2 a =>
      have ha : a < 256 := h a (by simp)
      simp only [encodeB64, decodeB64]
      norm_num
      omega
  | case3 a b =>
      have ha : a < 256 := h a (by simp)
      have hb : b < 256 := h b (by simp)
      have hy : ¬ (b % 16 * 4 = 64) := by omega
      simp only [encodeB64, decodeB64, if_neg hy]
      norm_num
      constructor
      · omega
      · omega
  | case4 a b c t ih =>
      have ha : a < 256 := h a (by simp)
      have hb : b < 256 := h b (by simp)
      have hc : c < 256 := h c (by simp)
      have ht : ByteList t := by
        intro x hx
        exact h x (by simp [hx])
      have hz : ¬ (c % 64 = 64) := by omega
      simp only [encodeB64, decodeB64, if_neg hz, ih ht]
      refine congrArg some ?_
      refine List.cons_eq_cons.mpr ⟨by omega, ?_⟩
      refine List.cons_eq_cons.mpr ⟨by omega, ?_⟩
      refine List.cons_eq_cons.mpr ⟨by omega, rfl⟩

theorem Dispatch.insertC_not_mem (c : Cache) (k : String) (v : Service)
    (h : k ∉ c.map Prod.fst) : insertC c k v = c ++ [(k, v)] := by
  induction c with
  | nil => rfl
  | cons hd t ih =>
      obtain ⟨k0, v0⟩ := hd
      simp only [List.map_cons, List.mem_cons] at h
      push_neg at h
      have hk : ¬ k0 = k := fun hk => h.1 hk.symm
      simp [insertC, hk, ih h.2]

theorem Dispatch.extendC_disjoint (es : List (String × Service)) :
    ∀ c : Cache, (∀ k ∈ es.map Prod.fst, k ∉ c.map Prod.fst) →
    (es.map Prod.fst).Nodup → extendC c es = c ++ es := by
  induction es with
  | nil =>
      intro c _ _
      simp [extendC]
  | cons e t ih =>
      intro c hdisj hnd
      obtain ⟨k0, v0⟩ := e
      simp only [List.map_cons, List.nodup_cons] at hnd
      have hk0 : k0 ∉ c.map Prod.fst := hdisj k0 (by simp)
      have step : extendC c ((k0, v0) :: t) = extendC (insertC c k0 v0) t := rfl
      rw [step, insertC_not_mem c k0 v0 hk0, ih (c ++ [(k0, v0)]) ?_ hnd.2]
      · simp
      · intro k hk
        simp only [List.map_append, List.mem_append] at *
        push_neg
        refine ⟨fun hmem => (hdisj k (by simp [hk])) hmem, ?_⟩
        simp only [List.map_cons, List.map_nil, List.mem_singleton]
        intro hkk
        exact hnd.1 (hkk ▸ hk)

theorem Dispatch.extendC_nil_eq (m : Cache)
    (hnd : (m.map Prod.fst).Nodup) : extendC [] m = m := by
  have h := extendC_disjoint m [] (by simp) hnd
  simpa using h

theorem Dispatch.lookupC_extendC (es : List (String × Service)) :
    ∀ (c : Cache), (es.map Prod.fst).Nodup → ∀ k,
    lookupC (extendC c es) k =
      match lookupC es k with
      | some v => some v
      | none => lookupC c k := by
  induction es with
  | nil =>
      intro c _ k
      simp [extendC, lookupC]
  | cons e t ih =>
      intro c hnd k
      obtain ⟨k0, v0⟩ := e
      simp only [List.map_cons, List.nodup_cons] at hnd
      have step : extendC c ((k0, v0) :: t) = extendC (insertC c k0 v0) t := rfl
      rw [step, ih (insertC c k0 v0) hnd.2 k]
      by_cases hk : k0 = k
      · subst hk
        have ht : lookupC t k0 = none :=
          lookupC_eq_none_of_not_mem t k0 hnd.1
        simp [lookupC, ht, lookupC_insertC]
      · have hk' : ¬ k0 = k := hk
        simp only [lookupC, if_neg hk']
        cases hlt : lookupC t k with
        | some v => simp
        | none =>
            simp only []
            rw [lookupC_insertC]
            simp [fun h => hk' h]

/-- C8: decoding with `load_from_b64` the payload produced by
`save_as_b64` succeeds and merges the decoded entries into the existing
in-memory cache with `extend` — loaded entries overwrite colliding
keys, all other existing keys survive, and every persisted record comes
back with identical field values (loading into an empty cache
reproduces the map exactly). -/
theorem loadFromB64_saveAsB64 (existing m : Dispatch.Cache)
    (hB : CacheBounded m) (hnd : (m.map Prod.fst).Nodup) :
    loadFromB64 existing (saveAsB64 m) = .ok (Dispatch.extendC existing m) ∧
    (∀ k, Dispatch.lookupC (Dispatch.extendC existing m) k =
      match Dispatch.lookupC m k with
      | some v => some v
      | none => Dispatch.lookupC existing k) ∧
    Dispatch.extendC [] m = m := by
  refine ⟨?_, ?_, ?_⟩
  · have h1 := decodeB64_encodeB64 (encMap m) (byteList_encMap m)
    have h2 := decMap_encMap m hB
    simp only [loadFromB64, saveAsB64, h1, h2]
  · intro k
    exact Dispatch.lookupC_extendC m existing hnd k
  · exact Dispatch.extendC_nil_eq m hnd

/-- Witness for C8: the concrete two-service cache round-trips through
`save_as_b64`/`load_from_b64` into an empty cache, reproducing both
names with identical field values. -/
theorem loadFromB64_saveAsB64_witness :
    CacheBounded twoServiceCache ∧
    (twoServiceCache.map Prod.fst).Nodup ∧
    loadFromB64 [] (saveAsB64 twoServiceCache) = .ok twoServiceCache := by
  refine ⟨by decide, by decide, ?_⟩
  have h := loadFromB64_saveAsB64 [] twoServiceCache (by decide) (by decide)
  rw [h.1, h.2.2]
